import Mathlib

/-!
Verification of the LogSplitter_Monitor telemetry core: the binary frame
decoder with sequence tracking (src/utils/mqtt_protobuf_decoder.py and
src/utils/verify_protobuf_stream.py) and the time-windowed event correlator
(src/utils/basket_metrics_dashboard.py and
src/utils/archived/basket_exchange_metrics.py).

Bytes are modelled as natural numbers (each entry of a Python bytes object
is 0..255); bit masking and shifting (flags and 0x01, flags >> 2, ...) is
modelled with Nat.testBit and division/modulus. Little-endian multi-byte
integers are assembled explicitly. The IEEE-754 pressure value is kept as
its raw 32-bit little-endian bit pattern, uninterpreted, since no claim
refers to its numeric value. Timestamps handled by the correlator are
modelled as rationals (exact arithmetic over datetime second offsets).
-/

set_option autoImplicit false

namespace LogSplitter

/-- Little-endian unsigned 32-bit assembly, as in struct.unpack of a
less-than L format on bytes b0..b3. -/
def le32 (b0 b1 b2 b3 : Nat) : Nat :=
  b0 + 256 * b1 + 65536 * b2 + 16777216 * b3

/-- Little-endian unsigned 16-bit assembly. -/
def le16 (b0 b1 : Nat) : Nat :=
  b0 + 256 * b1

/-- Decoded payload variants, one per handler of
LogSplitterProtobufDecoder. Fields follow the struct unpacking and the bit
masks of each handler; derived display strings (type names and rounded
values) are presentation only and are not modelled. -/
inductive Payload where
  | digitalInput (pin : Nat) (state is_debounced : Bool)
      (input_type : Nat) (debounce_time_ms : Nat)
  | digitalOutput (pin : Nat) (state : Bool)
      (output_type mill_lamp_pattern : Nat)
  | relayEvent (relay_number : Nat) (state is_manual success : Bool)
      (relay_type : Nat)
  | pressure (sensor_pin : Nat) (is_fault : Bool) (pressure_type : Nat)
      (raw_adc_value : Nat) (pressure_psi_bits : Nat)
  | systemError (error_code : Nat) (acknowledged active : Bool)
      (severity : Nat) (description : List Nat)
  | safetyEvent (event_type : Nat) (is_active : Bool)
  | systemStatus (uptime_ms loop_frequency_hz free_memory_bytes
      active_error_count : Nat) (safety_active estop_active : Bool)
      (sequence_state mill_lamp_pattern : Nat)
  | sequenceEvent (event_type step_number elapsed_time_ms : Nat)
deriving DecidableEq

/-- Outcome of running one payload handler: a decoded payload dict, a
returned None (the length guard at the top of the handler fired), or a
raised struct.error (struct.unpack over the whole payload received more
bytes than the format consumes), which the outer try of decode_message
catches. -/
inductive HRes where
  | decoded (p : Payload)
  | skipped
  | raised
deriving DecidableEq

/-- Strip trailing zero bytes, as str.rstrip of a NUL character does after
ASCII decoding. -/
def rstripNul (l : List Nat) : List Nat :=
  (l.reverse.dropWhile (fun b => b == 0)).reverse

/-- Handler for type 0x10 (LogSplitterProtobufDecoder._decode_digital_input).
Requires at least 4 payload bytes, then unpacks a less-than BBH format over
the whole payload: pin, flags, debounce time (u16 little-endian). -/
def decode_digital_input (payload : List Nat) : HRes :=
  if payload.length < 4 then .skipped
  else
    match payload with
    | [pin, flags, d0, d1] =>
        .decoded (.digitalInput pin (flags.testBit 0) (flags.testBit 1)
          (flags / 4 % 64) (le16 d0 d1))
    | _ => .raised

/-- Handler for type 0x11 (_decode_digital_output): pin, flags, reserved. -/
def decode_digital_output (payload : List Nat) : HRes :=
  if payload.length < 3 then .skipped
  else
    match payload with
    | [pin, flags, _reserved] =>
        .decoded (.digitalOutput pin (flags.testBit 0)
          (flags / 2 % 8) (flags / 16 % 16))
    | _ => .raised

/-- Handler for type 0x12 (_decode_relay_event): relay number, flags,
reserved. -/
def decode_relay_event (payload : List Nat) : HRes :=
  if payload.length < 3 then .skipped
  else
    match payload with
    | [relay_number, flags, _reserved] =>
        .decoded (.relayEvent relay_number (flags.testBit 0)
          (flags.testBit 1) (flags.testBit 2) (flags / 8 % 32))
    | _ => .raised

/-- Handler for type 0x13 (_decode_pressure). Unpacks fixed slices of the
payload, so extra bytes beyond 8 never raise. -/
def decode_pressure (payload : List Nat) : HRes :=
  if payload.length < 8 then .skipped
  else
    .decoded (.pressure (payload.getD 0 0) ((payload.getD 1 0).testBit 0)
      ((payload.getD 1 0) / 2 % 128)
      (le16 (payload.getD 2 0) (payload.getD 3 0))
      (le32 (payload.getD 4 0) (payload.getD 5 0) (payload.getD 6 0)
        (payload.getD 7 0)))

/-- Handler for type 0x14 (_decode_system_error). The description is taken
from payload bytes 3 onward, truncated to what is available, with bytes
outside ASCII dropped (errors ignore) and trailing NULs stripped. Slicing
never raises. -/
def decode_system_error (payload : List Nat) : HRes :=
  if payload.length < 3 then .skipped
  else
    let error_code := payload.getD 0 0
    let flags := payload.getD 1 0
    let desc_length := payload.getD 2 0
    let description :=
      if 0 < desc_length ∧ 3 < payload.length then
        rstripNul (((payload.drop 3).take
          (min desc_length (payload.length - 3))).filter
          (fun b => decide (b < 128)))
      else []
    .decoded (.systemError error_code (flags.testBit 0) (flags.testBit 1)
      (flags / 4 % 4) description)

/-- Handler for type 0x15 (_decode_safety_event): event type, flags,
reserved. -/
def decode_safety_event (payload : List Nat) : HRes :=
  if payload.length < 3 then .skipped
  else
    match payload with
    | [event_type, flags, _reserved] =>
        .decoded (.safetyEvent event_type (flags.testBit 0))
    | _ => .raised

/-- Handler for type 0x16 (_decode_system_status): a less-than LHHBBH
format over the whole 12-byte payload. -/
def decode_system_status (payload : List Nat) : HRes :=
  if payload.length < 12 then .skipped
  else
    match payload with
    | [u0, u1, u2, u3, f0, f1, m0, m1, errs, flags, _r0, _r1] =>
        .decoded (.systemStatus (le32 u0 u1 u2 u3) (le16 f0 f1) (le16 m0 m1)
          errs (flags.testBit 0) (flags.testBit 1) (flags / 4 % 16)
          (flags / 64 % 4))
    | _ => .raised

/-- Handler for type 0x17 (_decode_sequence_event): a less-than BBH format
over the whole 4-byte payload. -/
def decode_sequence_event (payload : List Nat) : HRes :=
  if payload.length < 4 then .skipped
  else
    match payload with
    | [event_type, step_number, t0, t1] =>
        .decoded (.sequenceEvent event_type step_number (le16 t0 t1))
    | _ => .raised

/-- The message_handlers dispatch table of LogSplitterProtobufDecoder. -/
def message_handlers (msg_type : Nat) : Option (List Nat → HRes) :=
  if msg_type = 0x10 then some decode_digital_input
  else if msg_type = 0x11 then some decode_digital_output
  else if msg_type = 0x12 then some decode_relay_event
  else if msg_type = 0x13 then some decode_pressure
  else if msg_type = 0x14 then some decode_system_error
  else if msg_type = 0x15 then some decode_safety_event
  else if msg_type = 0x16 then some decode_system_status
  else if msg_type = 0x17 then some decode_sequence_event
  else none

/-- Failure outcomes of decode_message. The Python function prints a
diagnostic and returns None in each case; the printed reason distinguishes
the cases exactly as these constructors do. -/
inductive DecodeError where
  | tooShort (len : Nat)
  | sizeMismatch (expected got : Nat)
  | exception
deriving DecidableEq

/-- The record dict returned by decode_message on success. The payload
field is None when the type is unknown or when the handler returned None
on a short payload. -/
structure Record where
  size : Nat
  msg_type : Nat
  sequence : Nat
  timestamp : Nat
  payload : Option Payload
deriving DecidableEq

/-- LogSplitterProtobufDecoder.decode_message, minus the print side
channel and the statistics counters. The sequence-gap side channel is
modelled separately (track_step below). The size check compares the size
byte with the full buffer length, including the size byte itself. -/
def decode_message (bd : List Nat) : Except DecodeError Record :=
  if bd.length < 7 then .error (.tooShort bd.length)
  else if bd.headI ≠ bd.length then .error (.sizeMismatch bd.headI bd.length)
  else
    let msg_type := bd.getD 1 0
    let sequence := bd.getD 2 0
    let timestamp := le32 (bd.getD 3 0) (bd.getD 4 0) (bd.getD 5 0)
      (bd.getD 6 0)
    match message_handlers msg_type with
    | none => .ok ⟨bd.headI, msg_type, sequence, timestamp, none⟩
    | some handler =>
      match handler (bd.drop 7) with
      | .decoded p => .ok ⟨bd.headI, msg_type, sequence, timestamp, some p⟩
      | .skipped => .ok ⟨bd.headI, msg_type, sequence, timestamp, none⟩
      | .raised => .error .exception

/-! ## Sequence tracking

decode_message keeps a last_sequence dict from message type to the last
sequence byte seen for that type, and warns when the received sequence is
not (last + 1) mod 256. The state is modelled as a function from type code
to an optional last-seen value. -/

/-- Outcome of the per-type sequence check: first-ever frame for the type,
a continuation, or a gap carrying the expected and received values. -/
inductive SeqResult where
  | first
  | continues
  | gap (expected actual : Nat)
deriving DecidableEq

/-- One step of the sequence tracker of decode_message: report how the
received sequence relates to the last one seen for this type, and record
the received sequence as the new last-seen value (the dict is updated on
every frame, gap or not). -/
def track_step (st : Nat → Option Nat) (msg_type sequence : Nat) :
    SeqResult × (Nat → Option Nat) :=
  (match st msg_type with
   | none => .first
   | some last =>
     if sequence = (last + 1) % 256 then .continues
     else .gap ((last + 1) % 256) sequence,
   fun t => if t = msg_type then some sequence else st t)

/-- Run the tracker over a stream of (type, sequence) pairs, collecting the
per-frame reports. -/
def track_run (st : Nat → Option Nat) : List (Nat × Nat) → List SeqResult
  | [] => []
  | (t, s) :: rest =>
    (track_step st t s).1 :: track_run (track_step st t s).2 rest

/-! ## Stream validation (src/utils/verify_protobuf_stream.py) -/

/-- The issue strings appended by validate_message, one constructor per
distinct message. -/
inductive ValidationIssue where
  | tooShort (len : Nat)
  | sizeMismatch (sizeByte expectedTotal actual : Nat)
  | tooLarge (structSize : Nat)
  | tooSmall (structSize : Nat)
  | invalidType (msg_type : Nat)
  | invalidPayloadSize (payload_size : Nat)
deriving DecidableEq

/-- The fields validate_message reports for a valid message. -/
structure ValidInfo where
  msg_type : Nat
  sequence_id : Nat
  timestamp : Nat
  payload_size : Nat
deriving DecidableEq

/-- Membership in the VALID_MESSAGE_TYPES table (0x10 through 0x17). -/
def valid_message_type (t : Nat) : Bool :=
  t == 0x10 || t == 0x11 || t == 0x12 || t == 0x13 ||
  t == 0x14 || t == 0x15 || t == 0x16 || t == 0x17

/-- The EXPECTED_PAYLOAD_SIZES table: exact sizes for seven types, and the
range 3..27 for SYSTEM_ERROR (0x14). -/
def expected_payload_size_ok (t payload_size : Nat) : Bool :=
  if t = 0x10 then payload_size == 4
  else if t = 0x11 then payload_size == 3
  else if t = 0x12 then payload_size == 3
  else if t = 0x13 then payload_size == 8
  else if t = 0x14 then decide (3 ≤ payload_size) && decide (payload_size < 28)
  else if t = 0x15 then payload_size == 3
  else if t = 0x16 then payload_size == 12
  else if t = 0x17 then payload_size == 4
  else false

/-- validate_message of verify_protobuf_stream.py. The size byte declares
the struct size WITHOUT the size byte itself, so the expected total length
is the size byte plus one. The Python returns a result dict with a valid
flag and an issues list; the first issue raised is modelled as the error
value. -/
def validate_message (data : List Nat) : Except ValidationIssue ValidInfo :=
  if data.length < 7 then .error (.tooShort data.length)
  else
    let struct_size := data.headI
    if struct_size + 1 ≠ data.length then
      .error (.sizeMismatch struct_size (struct_size + 1) data.length)
    else if 33 < struct_size then .error (.tooLarge struct_size)
    else if struct_size < 9 then .error (.tooSmall struct_size)
    else
      let msg_type := data.getD 1 0
      if valid_message_type msg_type then
        let payload_size := struct_size - 6
        if expected_payload_size_ok msg_type payload_size then
          .ok ⟨msg_type, data.getD 2 0,
            le32 (data.getD 3 0) (data.getD 4 0) (data.getD 5 0)
              (data.getD 6 0), payload_size⟩
        else .error (.invalidPayloadSize payload_size)
      else .error (.invalidType msg_type)

/-! ## Window identification

Two windowing strategies exist in the repository. The archived analyzer
(src/utils/archived/basket_exchange_metrics.py,
BasketExchangeAnalyzer._identify_exchange_windows) clusters active
SPLITTER_OPERATOR signals with an inactivity timeout of 60 seconds and
pads each emitted window by 30 seconds before its first trigger and 120
seconds after its last. The dashboard
(src/utils/basket_metrics_dashboard.py,
BasketMetricsDashboard._identify_exchange_windows) emits one fixed window
per ACTIVE press, from 10 seconds before to 20 seconds after it.

Event timestamps are rationals; an operator event carries the two payload
fields the identifiers inspect. -/

/-- An operator-signal event as the identifiers see it: its timestamp, the
test input_type_name == SPLITTER_OPERATOR, and the active/state flag
(state is True for the archived analyzer, state_name == ACTIVE for the
dashboard). -/
structure OpEvent where
  t : ℚ
  isOperator : Bool
  active : Bool
deriving DecidableEq

/-- The trigger test of the archived analyzer loop: an active
SPLITTER_OPERATOR signal. -/
def isTrigger (e : OpEvent) : Bool :=
  e.isOperator && e.active

/-- Loop body of the archived _identify_exchange_windows. The state is the
open window as (first trigger time, last trigger time), or none. A trigger
within the timeout of the last one extends the open window; a later one
closes it as (start - prePad, last + postPad) and opens a new one; the
final open window is flushed with the same formula. -/
def identify_windows_aux (T P Q : ℚ) (st : Option (ℚ × ℚ)) :
    List OpEvent → List (ℚ × ℚ)
  | [] =>
    match st with
    | none => []
    | some (s, l) => [(s - P, l + Q)]
  | e :: rest =>
    if isTrigger e then
      match st with
      | none => identify_windows_aux T P Q (some (e.t, e.t)) rest
      | some (s, l) =>
        if e.t - l ≤ T then identify_windows_aux T P Q (some (s, e.t)) rest
        else (s - P, l + Q) :: identify_windows_aux T P Q (some (e.t, e.t)) rest
    else identify_windows_aux T P Q st rest

/-- The archived _identify_exchange_windows with its three constants left
as parameters: inactivity timeout T, start pad P, end pad Q. -/
def identify_exchange_windows (T P Q : ℚ) (operator_events : List OpEvent) :
    List (ℚ × ℚ) :=
  identify_windows_aux T P Q none operator_events

/-- The archived identifier at its configured constants:
operator_signal_timeout = 60 seconds, 30 seconds of pre-buffer, 120
seconds of post-buffer. -/
def archived_identify_windows (operator_events : List OpEvent) :
    List (ℚ × ℚ) :=
  identify_exchange_windows 60 30 120 operator_events

/-- The timestamps of the trigger events of a stream, in order. -/
def trigger_times (evs : List OpEvent) : List ℚ :=
  (evs.filter isTrigger).map OpEvent.t

/-- Modelled from the claim: consume the run of trigger times whose
consecutive separations stay at or below T, returning the last time of the
run and the remaining times. -/
def split_run (T : ℚ) (last : ℚ) : List ℚ → ℚ × List ℚ
  | [] => (last, [])
  | u :: rest =>
    if u - last ≤ T then split_run T u rest else (last, u :: rest)

theorem split_run_length (T : ℚ) (last : ℚ) (l : List ℚ) :
    (split_run T last l).2.length ≤ l.length := by
  induction l generalizing last with
  | nil => simp [split_run]
  | cons u rest ih =>
    simp only [split_run]
    split
    · exact le_trans (ih u) (Nat.le_succ _)
    · exact le_refl _

/-- Modelled from the claim: group a time-ordered list of trigger times
into windows, two consecutive triggers separated by at most T (inclusive
at exact equality) sharing a window; each window runs from its first
trigger minus P to its last trigger plus Q, the final group included. -/
def spec_identify_windows (T P Q : ℚ) : List ℚ → List (ℚ × ℚ)
  | [] => []
  | t :: rest =>
    (t - P, (split_run T t rest).1 + Q) ::
      spec_identify_windows T P Q (split_run T t rest).2
termination_by l => l.length
decreasing_by
  simp_wf
  exact Nat.lt_succ_of_le (split_run_length _ _ _)

/-- The dashboard _identify_exchange_windows: one window per ACTIVE
operator signal, 10 seconds before to 20 seconds after the press. -/
def dash_identify_windows : List OpEvent → List (ℚ × ℚ)
  | [] => []
  | e :: rest =>
    if e.active then (e.t - 10, e.t + 20) :: dash_identify_windows rest
    else dash_identify_windows rest

/-! ## Window classification and confidence
(src/utils/basket_metrics_dashboard.py) -/

/-- The exchange type strings assigned by _classify_exchange. -/
inductive ExchangeType where
  | MIXED
  | SEQUENCE
  | MANUAL
  | BUTTON_ONLY
deriving DecidableEq

/-- BasketMetricsDashboard._classify_exchange. Member sequence and relay
events are represented by their timestamps; the function reads only
emptiness and length. Note the MIXED and SEQUENCE arms are only reachable
with at least two sequence events. -/
def classify_exchange (operator_signals : List OpEvent)
    (sequence_events relay_events : List ℚ) : ExchangeType :=
  if sequence_events ≠ [] ∧ 2 ≤ sequence_events.length then
    if relay_events ≠ [] then .MIXED else .SEQUENCE
  else if relay_events ≠ [] then .MANUAL
  else .BUTTON_ONLY

/-- BasketMetricsDashboard._calculate_confidence, with the float constants
modelled exactly as rationals. Start from 0.8, return 0.0 when no ACTIVE
operator signal is present, subtract 0.2 when more than one is, add 0.2
for any sequence event and 0.2 for any relay event, and clamp the result
to the interval from 0.6 to 1.0. -/
def calculate_confidence (operator_signals : List OpEvent)
    (sequence_events relay_events : List ℚ) : ℚ :=
  let active_signals := operator_signals.filter (fun s => s.active)
  if active_signals = [] then 0
  else
    let c0 : ℚ := 8 / 10
    let c1 := if 1 < active_signals.length then c0 - 2 / 10 else c0
    let c2 := if sequence_events ≠ [] then c1 + 2 / 10 else c1
    let c3 := if relay_events ≠ [] then c2 + 2 / 10 else c2
    min 1 (max (6 / 10) c3)

/-- The accepted Exchange Record fields the acceptance logic constructs
(the environmental aggregates are attached afterwards and are optional). -/
structure BasketExchange where
  start_time : ℚ
  end_time : ℚ
  exchange_type : ExchangeType
  confidence : ℚ
deriving DecidableEq

/-- The acceptance logic of
BasketMetricsDashboard._analyze_exchange_window, with the database queries
replaced by the already-fetched member event lists: a window with no
operator signal at all yields nothing, and a window whose confidence falls
below 0.6 is filtered out. -/
def analyze_exchange_window (start_time end_time : ℚ)
    (operator_signals : List OpEvent)
    (sequence_events relay_events : List ℚ) : Option BasketExchange :=
  if operator_signals = [] then none
  else
    let ety := classify_exchange operator_signals sequence_events relay_events
    let conf := calculate_confidence operator_signals sequence_events
      relay_events
    if conf < 6 / 10 then none
    else some ⟨start_time, end_time, ety, conf⟩

/-! ## Helper lemmas -/

/-- With an open window (s, l), the archived loop emits the window of the
current trigger run, padded, followed by the windows of the remaining
trigger times. -/
theorem identify_windows_aux_spec (T P Q : ℚ) (evs : List OpEvent) :
    ∀ s l, identify_windows_aux T P Q (some (s, l)) evs =
      (s - P, (split_run T l (trigger_times evs)).1 + Q) ::
        spec_identify_windows T P Q (split_run T l (trigger_times evs)).2 := by
  induction evs with
  | nil =>
    intro s l
    simp [identify_windows_aux, trigger_times, split_run, spec_identify_windows]
  | cons e rest ih =>
    intro s l
    by_cases ht : isTrigger e
    · have htt : trigger_times (e :: rest) = e.t :: trigger_times rest := by
        simp [trigger_times, List.filter_cons, ht]
      rw [htt]
      simp only [identify_windows_aux, ht, if_true]
      by_cases hle : e.t - l ≤ T
      · rw [if_pos hle, ih s e.t]
        simp [split_run, hle]
      · rw [if_neg hle, ih e.t e.t]
        simp only [split_run, hle, if_false]
        rw [spec_identify_windows]
    · have htt : trigger_times (e :: rest) = trigger_times rest := by
        simp [trigger_times, List.filter_cons, ht]
      rw [htt]
      simp only [identify_windows_aux, ht, if_false]
      exact ih s l

/-- The archived window identifier computes exactly the grouping described
by the specification: split the trigger times at gaps strictly greater
than T, pad each group. -/
theorem identify_eq_spec (T P Q : ℚ) (evs : List OpEvent) :
    identify_exchange_windows T P Q evs =
      spec_identify_windows T P Q (trigger_times evs) := by
  induction evs with
  | nil =>
    simp [identify_exchange_windows, identify_windows_aux, trigger_times,
      spec_identify_windows]
  | cons e rest ih =>
    by_cases ht : isTrigger e
    · have htt : trigger_times (e :: rest) = e.t :: trigger_times rest := by
        simp [trigger_times, List.filter_cons, ht]
      rw [htt]
      show identify_windows_aux T P Q none (e :: rest) = _
      simp only [identify_windows_aux, ht, if_true]
      rw [identify_windows_aux_spec T P Q rest e.t e.t]
      rw [spec_identify_windows]
    · have htt : trigger_times (e :: rest) = trigger_times rest := by
        simp [trigger_times, List.filter_cons, ht]
      rw [htt]
      show identify_windows_aux T P Q none (e :: rest) = _
      simp only [identify_windows_aux, ht, if_false]
      exact ih

/-! ## Claims -/

/-- C1, counterexample. The claim says frame decoding succeeds only when
the declared length (byte 0) plus 1 equals the total buffer length. The
decoder accepts a 10-byte relay frame whose size byte is 10 (declared plus
1 is 11, not 10), and rejects with a size mismatch the 10-byte frame whose
size byte is 9 even though declared plus 1 equals the buffer length
there. -/
theorem claim_C1_counterexample :
    (decode_message [10, 0x12, 3, 0x4E, 0x61, 0xBC, 0, 1, 0x0D, 0]).isOk = true
    ∧ (10 : Nat) + 1 ≠ [10, 0x12, 3, 0x4E, 0x61, 0xBC, 0, 1, 0x0D, 0].length
    ∧ decode_message [9, 0x12, 3, 0x4E, 0x61, 0xBC, 0, 1, 0x0D, 0] =
        Except.error (DecodeError.sizeMismatch 9 10)
    ∧ (9 : Nat) + 1 = [9, 0x12, 3, 0x4E, 0x61, 0xBC, 0, 1, 0x0D, 0].length :=
  ⟨rfl, by decide, rfl, by decide⟩

/-- C1, amended. For every buffer of length at least 7,
decode_message (mqtt_protobuf_decoder.py) succeeds only if the size byte
equals the total buffer length, the size byte included, and fails with a
size-mismatch error whenever it differs; validate_message
(verify_protobuf_stream.py) instead enforces that the size byte plus 1
equals the total buffer length, failing with a size mismatch otherwise.
The two scripts use incompatible length conventions. -/
theorem claim_C1_amended (b0 b1 b2 b3 b4 b5 b6 : Nat) (rest : List Nat) :
    ((decode_message (b0 :: b1 :: b2 :: b3 :: b4 :: b5 :: b6 :: rest)).isOk →
      b0 = rest.length + 7)
    ∧ (b0 ≠ rest.length + 7 →
      decode_message (b0 :: b1 :: b2 :: b3 :: b4 :: b5 :: b6 :: rest) =
        Except.error (DecodeError.sizeMismatch b0 (rest.length + 7)))
    ∧ ((validate_message (b0 :: b1 :: b2 :: b3 :: b4 :: b5 :: b6 :: rest)).isOk →
      b0 + 1 = rest.length + 7)
    ∧ (b0 + 1 ≠ rest.length + 7 →
      validate_message (b0 :: b1 :: b2 :: b3 :: b4 :: b5 :: b6 :: rest) =
        Except.error
          (ValidationIssue.sizeMismatch b0 (b0 + 1) (rest.length + 7))) := by
  have hlen : (b0 :: b1 :: b2 :: b3 :: b4 :: b5 :: b6 :: rest).length =
      rest.length + 7 := by
    simp
  have hd : b0 ≠ rest.length + 7 →
      decode_message (b0 :: b1 :: b2 :: b3 :: b4 :: b5 :: b6 :: rest) =
        Except.error (DecodeError.sizeMismatch b0 (rest.length + 7)) := by
    intro hne
    unfold decode_message
    rw [hlen]
    rw [if_neg (by omega)]
    simp only [List.headI]
    rw [if_pos hne]
  have hv : b0 + 1 ≠ rest.length + 7 →
      validate_message (b0 :: b1 :: b2 :: b3 :: b4 :: b5 :: b6 :: rest) =
        Except.error
          (ValidationIssue.sizeMismatch b0 (b0 + 1) (rest.length + 7)) := by
    intro hne
    unfold validate_message
    rw [hlen]
    rw [if_neg (by omega)]
    simp only [List.headI]
    rw [if_pos hne]
  refine ⟨?_, hd, ?_, hv⟩
  · intro hok
    by_contra hne
    rw [hd hne] at hok
    simp [Except.isOk, Except.toBool] at hok
  · intro hok
    by_contra hne
    rw [hv hne] at hok
    simp [Except.isOk, Except.toBool] at hok

/-- C1, witness for the amended claim: the decoder accepts the size byte
10 on a 10-byte buffer and rejects size byte 9 there, while the validator
accepts size byte 9 on a 10-byte buffer. -/
theorem claim_C1_witness :
    decode_message [9, 0x12, 3, 0x4E, 0x61, 0xBC, 0, 1, 0x0D, 0] =
      Except.error (DecodeError.sizeMismatch 9 10)
    ∧ validate_message [10, 0x12, 3, 0x4E, 0x61, 0xBC, 0, 1, 0x0D, 0] =
      Except.error (ValidationIssue.sizeMismatch 10 11 10)
    ∧ ((decode_message [10, 0x12, 3, 0x4E, 0x61, 0xBC, 0, 1, 0x0D, 0]).isOk →
      10 = [(1 : Nat), 0x0D, 0].length + 7)
    ∧ ((validate_message [9, 0x12, 3, 0x4E, 0x61, 0xBC, 0, 1, 0x0D, 0]).isOk →
      9 + 1 = [(1 : Nat), 0x0D, 0].length + 7) :=
  ⟨(claim_C1_amended 9 0x12 3 0x4E 0x61 0xBC 0 [1, 0x0D, 0]).2.1 (by decide),
   (claim_C1_amended 10 0x12 3 0x4E 0x61 0xBC 0 [1, 0x0D, 0]).2.2.2 (by decide),
   (claim_C1_amended 10 0x12 3 0x4E 0x61 0xBC 0 [1, 0x0D, 0]).1,
   (claim_C1_amended 9 0x12 3 0x4E 0x61 0xBC 0 [1, 0x0D, 0]).2.2.1⟩

/-- C3. The sequence tracker of decode_message reports a first-ever frame
for a type, reports a continuation exactly when the received sequence is
(last + 1) mod 256, reports a gap carrying expected = (last + 1) mod 256
and the received value otherwise, leaves other types untouched, and on the
streams [5, 6, 7, 9] and [254, 255, 0] of type 0x10 reports
first/continues/continues/gap 8 9 and first/continues/continues (no false
gap at the 255 to 0 wrap). -/
theorem claim_C3 :
    (∀ (st : Nat → Option Nat) (tc s : Nat), st tc = none →
      (track_step st tc s).1 = SeqResult.first)
    ∧ (∀ (st : Nat → Option Nat) (tc s last : Nat), st tc = some last →
      s = (last + 1) % 256 → (track_step st tc s).1 = SeqResult.continues)
    ∧ (∀ (st : Nat → Option Nat) (tc s last : Nat), st tc = some last →
      s ≠ (last + 1) % 256 →
      (track_step st tc s).1 = SeqResult.gap ((last + 1) % 256) s)
    ∧ (∀ (st : Nat → Option Nat) (tc s u : Nat), u ≠ tc →
      (track_step st tc s).2 u = st u)
    ∧ track_run (fun _ => none) [(0x10, 5), (0x10, 6), (0x10, 7), (0x10, 9)] =
      [SeqResult.first, SeqResult.continues, SeqResult.continues,
        SeqResult.gap 8 9]
    ∧ track_run (fun _ => none) [(0x10, 254), (0x10, 255), (0x10, 0)] =
      [SeqResult.first, SeqResult.continues, SeqResult.continues] := by
  refine ⟨?_, ?_, ?_, ?_, by rfl, by rfl⟩
  · intro st tc s h
    simp [track_step, h]
  · intro st tc s last h hs
    simp only [track_step, h]
    rw [if_pos hs]
  · intro st tc s last h hs
    simp only [track_step, h]
    rw [if_neg hs]
  · intro st tc s u hu
    simp [track_step, hu]

/-- C3, witness: the three step outcomes and the untouched-type property
at concrete states. -/
theorem claim_C3_witness :
    (track_step (fun _ => none) 0x10 5).1 = SeqResult.first
    ∧ (track_step (fun u => if u = 0x10 then some 5 else none) 0x10 6).1 =
      SeqResult.continues
    ∧ (track_step (fun u => if u = 0x10 then some 7 else none) 0x10 9).1 =
      SeqResult.gap 8 9
    ∧ (track_step (fun _ => none) 0x10 5).2 0x11 = none :=
  ⟨claim_C3.1 (fun _ => none) 0x10 5 rfl,
   claim_C3.2.1 (fun u => if u = 0x10 then some 5 else none) 0x10 6 5
     (by simp) (by decide),
   claim_C3.2.2.1 (fun u => if u = 0x10 then some 7 else none) 0x10 9 7
     (by simp) (by decide),
   claim_C3.2.2.2.1 (fun _ => none) 0x10 5 0x11 (by decide)⟩

/-- C6, counterexample. The claim says no decoded event record is produced
for a well-framed frame with an unknown type code. decode_message returns
a record (with a None payload) for the unknown type 0x18, not a failure:
the frame flows onward as a decoded message. -/
theorem claim_C6_counterexample :
    message_handlers 0x18 = none
    ∧ decode_message [10, 0x18, 0, 0, 0, 0, 0, 1, 2, 3] =
      Except.ok ⟨10, 0x18, 0, 0, none⟩ :=
  ⟨rfl, rfl⟩

/-- C6, amended. For every well-framed buffer whose type code has no entry
in the handler table, no payload is decoded (the record's payload field is
None, and the unknown type is reported as a distinct warning), but
decode_message still returns the header record instead of failing. -/
theorem claim_C6_amended (b0 t b2 b3 b4 b5 b6 : Nat) (rest : List Nat)
    (hunknown : message_handlers t = none)
    (hsize : b0 = rest.length + 7) :
    decode_message (b0 :: t :: b2 :: b3 :: b4 :: b5 :: b6 :: rest) =
      Except.ok ⟨b0, t, b2, le32 b3 b4 b5 b6, none⟩ := by
  have hlen : (b0 :: t :: b2 :: b3 :: b4 :: b5 :: b6 :: rest).length =
      rest.length + 7 := by
    simp
  unfold decode_message
  rw [hlen]
  rw [if_neg (by omega)]
  simp only [List.headI]
  rw [if_neg (by simp [hsize])]
  simp [List.getD, hunknown, hsize]

/-- C6, witness for the amended claim at the concrete unknown type 0x18. -/
theorem claim_C6_witness :
    decode_message [10, 0x18, 7, 0, 0, 0, 0, 4, 5, 6] =
      Except.ok ⟨10, 0x18, 7, le32 0 0 0 0, none⟩ :=
  claim_C6_amended 10 0x18 7 0 0 0 0 [4, 5, 6] rfl (by decide)

/-- C7. The claim (3-byte Digital-Input payload, matching the spec table
and the unit tests in src/utils/tests/) is contradicted by the code: the
repository's own test fixture, a 10-byte DIGITAL_INPUT frame with a
3-byte payload whose expected decode is pin 6, not active, debounced,
input type 5, is accepted at the frame level but its payload decode
returns None, because _decode_digital_input demands at least 4 payload
bytes and unpacks a 4-byte BBH format, and EXPECTED_PAYLOAD_SIZES demands
exactly 4 payload bytes for type 0x10. -/
theorem claim_C7_code_divergence :
    decode_message [0x0A, 0x10, 0x01, 0x4E, 0x61, 0xBC, 0x00, 0x06, 0x16, 0x0A] =
      Except.ok ⟨10, 0x10, 1, 12345678, none⟩
    ∧ decode_digital_input [0x06, 0x16, 0x0A] = HRes.skipped
    ∧ decode_digital_input [0x06, 0x16, 0x0A, 0x00] =
      HRes.decoded (Payload.digitalInput 6 false true 5 10)
    ∧ expected_payload_size_ok 0x10 3 = false
    ∧ expected_payload_size_ok 0x10 4 = true :=
  ⟨rfl, rfl, rfl, rfl, rfl⟩

/-- C9. Frame decoding is total: for every input byte buffer, of any
length and content, decode_message terminates (it is a total function of
its input) and yields either a typed error outcome or a record; the
Python wraps the body in a try block whose except arm returns None, so no
exception escapes to the caller. -/
theorem claim_C9 (bd : List Nat) :
    (∃ err, decode_message bd = Except.error err)
    ∨ (∃ record, decode_message bd = Except.ok record) := by
  cases h : decode_message bd with
  | error e => exact Or.inl ⟨e, rfl⟩
  | ok r => exact Or.inr ⟨r, rfl⟩

/-- C2. For every window with at least one ACTIVE operator signal, the
confidence equals the 0.8 baseline, minus 0.2 when more than one ACTIVE
signal fired in the window, plus 0.2 when any sequence event is present,
plus 0.2 when any relay event is present, clamped to the interval from
0.6 to 1.0; in particular it is never below 0.6. -/
theorem claim_C2 (ops : List OpEvent) (seqs relays : List ℚ)
    (h : ops.filter (fun s => s.active) ≠ []) :
    calculate_confidence ops seqs relays =
      min 1 (max (6 / 10)
        ((8 / 10 : ℚ)
          - (if 1 < (ops.filter (fun s => s.active)).length then 2 / 10 else 0)
          + (if seqs ≠ [] then 2 / 10 else 0)
          + (if relays ≠ [] then 2 / 10 else 0)))
    ∧ (6 / 10 : ℚ) ≤ calculate_confidence ops seqs relays := by
  simp only [calculate_confidence]
  rw [if_neg h]
  constructor
  · split_ifs <;> norm_num
  · exact le_min (by norm_num) (le_max_left _ _)

/-- C2, witness: one active press, two sequence events and a relay event
score min 1 (max 0.6 (0.8 + 0.2 + 0.2)) = 1, and at least 0.6. -/
theorem claim_C2_witness :
    calculate_confidence [⟨0, true, true⟩] [1, 2] [3] =
      min 1 (max (6 / 10)
        ((8 / 10 : ℚ)
          - (if 1 < (List.filter (fun s => s.active)
              [(⟨0, true, true⟩ : OpEvent)]).length then 2 / 10 else 0)
          + (if ([1, 2] : List ℚ) ≠ [] then 2 / 10 else 0)
          + (if ([3] : List ℚ) ≠ [] then 2 / 10 else 0)))
    ∧ (6 / 10 : ℚ) ≤ calculate_confidence [⟨0, true, true⟩] [1, 2] [3] :=
  claim_C2 [⟨0, true, true⟩] [1, 2] [3] (by simp)

/-- C4. The archived window identifier behaves exactly as the claim
describes: it equals the specification-side grouping that merges
consecutive triggers separated by at most the timeout (split_run splits
only at gaps strictly greater than T) and pads each group to
(first - P, last + Q), the final still-open group emitted the same way at
end of input; and a pair of triggers separated by exactly the timeout
stays in one window (the tie-break at equality is inclusive). -/
theorem claim_C4 :
    (∀ (T P Q : ℚ) (evs : List OpEvent),
      identify_exchange_windows T P Q evs =
        spec_identify_windows T P Q (trigger_times evs))
    ∧ (∀ T P Q t : ℚ,
      identify_exchange_windows T P Q [⟨t, true, true⟩, ⟨t + T, true, true⟩] =
        [(t - P, t + T + Q)]) := by
  constructor
  · exact identify_eq_spec
  · intro T P Q t
    simp only [identify_exchange_windows, identify_windows_aux, isTrigger]
    norm_num

/-- C5, counterexample. A window with exactly one sequence event and one
relay event has both kinds present, so the claim classifies it Mixed, but
_classify_exchange returns MANUAL (its MIXED arm requires at least two
sequence events). -/
theorem claim_C5_counterexample :
    ([(0 : ℚ)] : List ℚ) ≠ []
    ∧ classify_exchange [⟨0, true, true⟩] [0] [0] = ExchangeType.MANUAL
    ∧ classify_exchange [⟨0, true, true⟩] [0] [0] ≠ ExchangeType.MIXED := by
  refine ⟨by simp, ?_, ?_⟩ <;> simp [classify_exchange]

/-- C5, amended. The classification is Sequence when at least two
sequence events and no relay events are present; Mixed when at least two
sequence events and relay events are present; Manual when relay events
are present and there are fewer than two sequence events; and ButtonOnly
when there are no relay events and fewer than two sequence events. -/
theorem claim_C5_amended (ops : List OpEvent) (seqs relays : List ℚ) :
    (2 ≤ seqs.length → relays = [] →
      classify_exchange ops seqs relays = ExchangeType.SEQUENCE)
    ∧ (2 ≤ seqs.length → relays ≠ [] →
      classify_exchange ops seqs relays = ExchangeType.MIXED)
    ∧ (seqs.length < 2 → relays ≠ [] →
      classify_exchange ops seqs relays = ExchangeType.MANUAL)
    ∧ (seqs.length < 2 → relays = [] →
      classify_exchange ops seqs relays = ExchangeType.BUTTON_ONLY) := by
  unfold classify_exchange
  refine ⟨?_, ?_, ?_, ?_⟩ <;> intro h1 h2
  · have hs : seqs ≠ [] := by
      intro he
      rw [he] at h1
      simp at h1
    rw [if_pos ⟨hs, h1⟩, if_neg (by simp [h2])]
  · have hs : seqs ≠ [] := by
      intro he
      rw [he] at h1
      simp at h1
    rw [if_pos ⟨hs, h1⟩, if_pos h2]
  · rw [if_neg (fun hc => by omega), if_pos h2]
  · rw [if_neg (fun hc => by omega), if_neg (by simp [h2])]

/-- C5, witness for the amended claim: all four classification arms at
concrete windows. -/
theorem claim_C5_witness :
    classify_exchange [] [1, 2] [] = ExchangeType.SEQUENCE
    ∧ classify_exchange [] [1, 2] [3] = ExchangeType.MIXED
    ∧ classify_exchange [] [1] [3] = ExchangeType.MANUAL
    ∧ classify_exchange [] [] [] = ExchangeType.BUTTON_ONLY :=
  ⟨(claim_C5_amended [] [1, 2] []).1 (by simp) rfl,
   (claim_C5_amended [] [1, 2] [3]).2.1 (by simp) (by simp),
   (claim_C5_amended [] [1] [3]).2.2.1 (by simp) (by simp),
   (claim_C5_amended [] [] []).2.2.2 (by simp) rfl⟩

/-- C8. A window with no ACTIVE operator signal gets confidence 0.0 from
_calculate_confidence, and _analyze_exchange_window produces no accepted
exchange for it (confidence 0.0 falls below the 0.6 acceptance
threshold), regardless of the sequence or relay events it contains. -/
theorem claim_C8 (s e : ℚ) (ops : List OpEvent) (seqs relays : List ℚ)
    (h : ops.filter (fun x => x.active) = []) :
    calculate_confidence ops seqs relays = 0
    ∧ analyze_exchange_window s e ops seqs relays = none := by
  have hc : calculate_confidence ops seqs relays = 0 := by
    simp only [calculate_confidence]
    rw [if_pos h]
  refine ⟨hc, ?_⟩
  by_cases ho : ops = []
  · simp [analyze_exchange_window, ho]
  · simp only [analyze_exchange_window]
    rw [if_neg ho, hc]
    norm_num

/-- C8, witness: a window holding one INACTIVE operator signal, a
sequence event and a relay event scores 0.0 and is not emitted. -/
theorem claim_C8_witness :
    calculate_confidence [⟨0, true, false⟩] [1] [2] = 0
    ∧ analyze_exchange_window 0 5 [⟨0, true, false⟩] [1] [2] = none :=
  claim_C8 0 5 [⟨0, true, false⟩] [1] [2] (by simp)

/-- C10. Emitted windows are not pairwise disjoint. In the archived
inactivity-timeout identifier (timeout 60 s, pads 30 s and 120 s), two
active triggers separated by more than 60 s but less than 150 s produce
two windows, the first ending at the first trigger plus 120 s, after the
second starts at the second trigger minus 30 s. In the per-press
dashboard identifier, two ACTIVE presses less than 30 s apart produce two
windows of (press - 10 s, press + 20 s) that overlap. A single event
timestamped in the overlap belongs to both windows. -/
theorem claim_C10 :
    (∀ t1 t2 : ℚ, 60 < t2 - t1 → t2 - t1 < 150 →
      archived_identify_windows [⟨t1, true, true⟩, ⟨t2, true, true⟩] =
        [(t1 - 30, t1 + 120), (t2 - 30, t2 + 120)]
      ∧ t2 - 30 < t1 + 120)
    ∧ (∀ t1 t2 : ℚ, t1 ≤ t2 → t2 - t1 < 30 →
      dash_identify_windows [⟨t1, true, true⟩, ⟨t2, true, true⟩] =
        [(t1 - 10, t1 + 20), (t2 - 10, t2 + 20)]
      ∧ t2 - 10 < t1 + 20) := by
  constructor
  · intro t1 t2 h1 h2
    refine ⟨?_, by linarith⟩
    rw [show archived_identify_windows [⟨t1, true, true⟩, ⟨t2, true, true⟩] =
      spec_identify_windows 60 30 120
        (trigger_times [⟨t1, true, true⟩, ⟨t2, true, true⟩]) from
      identify_eq_spec 60 30 120 _]
    have htt : trigger_times [(⟨t1, true, true⟩ : OpEvent), ⟨t2, true, true⟩] =
        [t1, t2] := by
      simp [trigger_times, isTrigger]
    rw [htt, spec_identify_windows]
    simp only [split_run]
    rw [if_neg (by linarith)]
    rw [spec_identify_windows]
    simp [split_run, spec_identify_windows]
  · intro t1 t2 h1 h2
    refine ⟨?_, by linarith⟩
    simp [dash_identify_windows]

/-- C10, witness: triggers at 0 s and 100 s overlap in the archived
identifier, presses at 0 s and 10 s overlap in the dashboard one. -/
theorem claim_C10_witness :
    (archived_identify_windows [⟨0, true, true⟩, ⟨100, true, true⟩] =
      [((0 : ℚ) - 30, 0 + 120), (100 - 30, 100 + 120)]
    ∧ (100 : ℚ) - 30 < 0 + 120)
    ∧ (dash_identify_windows [⟨0, true, true⟩, ⟨10, true, true⟩] =
      [((0 : ℚ) - 10, 0 + 20), (10 - 10, 10 + 20)]
    ∧ (10 : ℚ) - 10 < 0 + 20) :=
  ⟨claim_C10.1 0 100 (by norm_num) (by norm_num),
   claim_C10.2 0 10 (by norm_num) (by norm_num)⟩

end LogSplitter
